import Mathlib

/-!
Verification development for the mediatheque-numerique → Letterboxd
synchronisation script (`main.py`, `type_defs.py`).

The definitions below are shallow embeddings of the functions in
`src/main.py`.  Pure helpers (`decompose`) are translated directly; the
stateful run (`main`) is modelled as an explicit function from its inputs
(the previously persisted snapshot, the results of the fetch passes, the
outcomes of the remote import calls) to an observable outcome record
(file writes, staged payloads, remote calls, recorded errors).  Loops
without a structural bound (`while`-loops in the Python source) are given
explicit fuel; exhausting the fuel (`none`) models non-termination.
-/

/-! ## Data model (columns ID, Title, Directors, Year of all_films.csv) -/

structure Film where
  id : Nat
  title : String
  directors : String
  year : Option Nat
deriving DecidableEq, Repr

/-- A staged payload row: a Film minus its ID column
(`drop("ID", axis="columns")` before `to_csv("temp_films_import.csv")`). -/
abbrev PayloadRow := String × String × Option Nat

/-- `films.drop("ID").to_csv(...)`: the payload staged for one import. -/
def mkPayload (films : List Film) : List PayloadRow :=
  films.map fun f => (f.title, f.directors, f.year)

/-! ## `decompose` (main.py lines 88–115)

A row of the intermediate DataFrame: `Title` (string), `Directors`
(a list, or NaN — modelled as `Option (List String)`), `Year`
(int or NaN — modelled as `Option Nat`; `pd.isna` ↔ `none`). -/

structure Row where
  title : String
  directors : Option (List String)
  year : Option Nat

/-- The separator of `",".join(row["Directors"])`. -/
def commaStr : String := ","

/-- The empty string returned for absent directors. -/
def emptyStr : String := ""

/-- Model of the regex fragment ` \((\d*)\)` matched at the head of the
remaining input: a space, an opening parenthesis, a (possibly empty, greedy)
digit run captured as group 3, and a closing parenthesis.  Returns the
captured digit string.  (`\d*` is greedy, but since `)` is not a digit no
backtracking into the digit run can ever succeed, so taking the maximal run
and then requiring `)` is exact.) -/
def yearSuffix : List Char → Option String
  | ' ' :: '(' :: rest =>
    match rest.span Char.isDigit with
    | (ds, ')' :: _) => some (String.mk ds)
    | _ => none
  | _ => none

/-- Model of `(.*?) \((\d*)\)`: the lazy group 2 (`.` matches anything but
a newline) is grown one character at a time, trying the ` \((\d*)\)`
continuation at each split first — exactly Python's lazy-quantifier
backtracking.  Returns (group 2, group 3). -/
def grp2 (cs : List Char) (acc : List Char) : Option (String × String) :=
  match yearSuffix cs with
  | some y => some (String.mk acc.reverse, y)
  | none =>
    match cs with
    | [] => none
    | c :: rest => if c = '\n' then none else grp2 rest (c :: acc)

/-- Model of `(.*?)\" d(?:'|e )(.*?) \((\d*)\)` starting right after the
opening quote: the lazy group 1 is grown one character at a time; at each
split the continuation `" d'` or `" de ` followed by the group-2 part is
tried first, and on its failure group 1 is extended (backtracking).
Returns (group 1, group 2, group 3). -/
def grp1A (cs : List Char) (acc : List Char) : Option (String × String × String) :=
  match cs with
  | [] => none
  | c :: rest =>
    let attempt : Option (String × String × String) :=
      match cs with
      | '"' :: ' ' :: 'd' :: '\'' :: rest2 =>
        (grp2 rest2 []).map fun p => (String.mk acc.reverse, p.1, p.2)
      | '"' :: ' ' :: 'd' :: 'e' :: ' ' :: rest2 =>
        (grp2 rest2 []).map fun p => (String.mk acc.reverse, p.1, p.2)
      | _ => none
    match attempt with
    | some r => some r
    | none => if c = '\n' then none else grp1A rest (c :: acc)

/-- Leftmost match of pattern A `\"(.*?)\" d(?:'|e )(.*?) \((\d*)\)` in the
title, i.e. `re.findall(pattern, title)[0]` when the list is non-empty:
the scan tries each start position from the left; the pattern can only
start at a `"`. -/
def findA : List Char → Option (String × String × String)
  | [] => none
  | c :: rest =>
    match (if c = '"' then grp1A rest [] else none) with
    | some r => some r
    | none => findA rest

/-- Model of `(.*?)\" de ` starting right after the opening quote: lazy
group 1 grown until the literal continuation `" de ` matches. -/
def grp1B (cs : List Char) (acc : List Char) : Option String :=
  match cs with
  | [] => none
  | c :: rest =>
    match cs with
    | '"' :: ' ' :: 'd' :: 'e' :: ' ' :: _ => some (String.mk acc.reverse)
    | _ => if c = '\n' then none else grp1B rest (c :: acc)

/-- Leftmost match of pattern B `\"(.*?)\" de ` in the title. -/
def findB : List Char → Option String
  | [] => none
  | c :: rest =>
    match (if c = '"' then grp1B rest [] else none) with
    | some r => some r
    | none => findB rest

/-- Decimal value of a digit string. -/
def digitsToNat (cs : List Char) : Nat :=
  cs.foldl (fun n c => 10 * n + (c.toNat - Char.toNat '0')) 0

/-- `int(s)` applied to a capture of `(\d*)`: the capture is a run of
digits, so the conversion succeeds with its decimal value unless the
capture is empty, in which case `int("")` raises `ValueError`. -/
def parseCapturedYear (s : String) : Option Nat :=
  match s.data with
  | [] => none
  | cs => some (digitsToNat cs)

/-- `decompose` (main.py lines 88–115).  `none` models the function
raising an exception: `int(result[0][2])` raises `ValueError` exactly when
the captured `(\d*)` group is the empty string. -/
def decompose (row : Row) : Option (String × String × Option Nat) :=
  match row.year with
  | some y =>
    match row.directors with
    | some ds => some (row.title, String.intercalate commaStr ds, some y)
    | none => some (row.title, emptyStr, some y)
  | none =>
    match findA row.title.data with
    | some (t, d, ystr) =>
      match parseCapturedYear ystr with
      | some y => some (t, d, some y)
      | none => none
    | none =>
      match findB row.title.data with
      | some t => some (t, emptyStr, none)
      | none => some (row.title, emptyStr, none)

/-! ## Catalog Fetcher: `load_raw_data` (main.py lines 37–85)

The HTTP transport is abstracted as a function from the request index to
an outcome: either a connection-level exception raised by `requests.post`
(`connError`) or a response.  One request is issued per page, so the
request index equals the page number.  Records are abstracted by their
ids (`List Nat`).  The `while response.status_code == 200` loop has no
structural bound, so it takes explicit fuel; `none` models
non-termination within that fuel. -/

inductive Req (α : Type) where
  | connError : Req α
  | value : α → Req α

structure Page where
  status : Nat
  records : List Nat

/-- Outcome of `load_raw_data`: an uncaught exception propagating out
(`err`), or the accumulated record list. -/
inductive FetchResult where
  | err : FetchResult
  | ok : List Nat → FetchResult
deriving DecidableEq, Repr

/-- The pagination loop of `load_raw_data`: request the current page; a
connection failure propagates (there is no try/except in
`load_raw_data`); a 200 response is accumulated and the page number
incremented; any other status ends the loop, returning what was
accumulated so far (the non-200 response's body is discarded). -/
def load_raw_data_go (t : Nat → Req Page) : Nat → Nat → List Nat → Option FetchResult
  | 0, _, _ => none
  | fuel + 1, page, acc =>
    match t page with
    | .connError => some .err
    | .value p =>
      if p.status = 200 then load_raw_data_go t fuel (page + 1) (acc ++ p.records)
      else some (.ok acc)

/-- `load_raw_data`: start at page 0 with no accumulated data. -/
def load_raw_data (t : Nat → Req Page) (fuel : Nat) : Option FetchResult :=
  load_raw_data_go t fuel 0 []

/-! ## Geolocation gate request (main.py lines 318–321)

`main` begins with `requests.get("http://ipinfo.io/json")` wrapped in a
`try/except requests.ConnectionError` whose handler repeats the request
once; a connection failure of the repeated request is uncaught.  The
response JSON is abstracted to its optional `country` field. -/

inductive GeoResult where
  | err : GeoResult
  | ok : Option String → GeoResult
deriving DecidableEq, Repr

/-- The geolocation request with its single immediate retry on a
connection-level failure. -/
def geoRequest (t : Nat → Req (Option String)) : GeoResult :=
  match t 0 with
  | .value c => .ok c
  | .connError =>
    match t 1 with
    | .value c => .ok c
    | .connError => .err

/-! ## Snapshot-completeness loop (main.py lines 337–341)

`create_csv("TITLE")` is run once; then `create_csv("PUBLICATION_DATE")`
is re-run in a `while True` loop until its length reaches the
title-ordered length.  The date-sorted pass is abstracted as a function
from the attempt index to the snapshot it produced.  The loop returns
the index of the first accepted attempt; `none` models running out of
fuel (the loop has no iteration cap in the source). -/

def firstCompleteFrom (dateData : Nat → List Film) (target : Nat) : Nat → Nat → Option Nat
  | 0, _ => none
  | fuel + 1, k =>
    if target ≤ (dateData k).length then some k
    else firstCompleteFrom dateData target fuel (k + 1)

/-! ## `main` (main.py lines 316–430), after the geolocation gate

Inputs of the run: the previously persisted snapshot (`old_data`, read
from all_films.csv at line 335), the result of the title-ordered pass,
the results of the date-ordered attempts, and the outcome of each
`import_list` call (indexed by call order).  `import_list` outcomes are
as documented in its docstring: success, a raised `WebDriverException`
(the remote-error case), or any other raised exception. -/

inductive ImportResult where
  | success : ImportResult
  | webDriverError : ImportResult
  | otherError : ImportResult
deriving DecidableEq, Repr

structure MainInput where
  oldData : List Film
  titleData : List Film
  dateData : Nat → List Film
  importResults : Nat → ImportResult

/-- Observables of one run of `main`:
`fileWrites` is the sequence of contents written to all_films.csv
(every `create_csv` call writes it at line 181; the two `except`
handlers rewrite it with `old_data` at lines 421 and 428);
`finalFile` is its content when `main` returns;
`newData` is the accepted date-ordered snapshot;
`stagedPayloads` lists each payload written to temp_films_import.csv;
`importCalls` lists the `change_all` argument of each `import_list` call;
`surfacedErrors` counts the `logger.exception` records (lines 424, 429);
`suspiciousAbort` is true iff the `len(removed) > 100` branch ran. -/
structure MainOutcome where
  fileWrites : List (List Film)
  finalFile : List Film
  newData : List Film
  stagedPayloads : List (List PayloadRow)
  importCalls : List Bool
  surfacedErrors : Nat
  suspiciousAbort : Bool
deriving DecidableEq, Repr

/-- `new_data_sorted[~new_data_sorted["ID"].isin(old_data["ID"])]`
(main.py line 343). -/
def addedOf (old new : List Film) : List Film :=
  new.filter fun f => ¬ old.any fun g => g.id = f.id

/-- `old_data[~old_data["ID"].isin(new_data_sorted["ID"])]`
(main.py line 344). -/
def removedOf (old new : List Film) : List Film :=
  old.filter fun f => ¬ new.any fun g => g.id = f.id

/-- main.py lines 343–429: the diff, the strategy decision, the import
calls and their error handling.  `writes` is the trace of snapshot-file
writes performed so far (by the `create_csv` calls); `newData` is the
accepted snapshot (already the file's current content). -/
def orchestrate (inp : MainInput) (newData : List Film) (writes : List (List Film)) :
    MainOutcome :=
  if (addedOf inp.oldData newData).length = 0 then
    -- line 346: "No new films: no import performed." — early return
    { fileWrites := writes, finalFile := newData, newData := newData,
      stagedPayloads := [], importCalls := [], surfacedErrors := 0,
      suspiciousAbort := false }
  else if (removedOf inp.oldData newData).length > 0 then
    -- lines 353–379: full replace; stage the whole snapshot minus ID
    match inp.importResults 0 with
    | .success =>
      { fileWrites := writes, finalFile := newData, newData := newData,
        stagedPayloads := [mkPayload newData], importCalls := [true],
        surfacedErrors := 0, suspiciousAbort := false }
    | .webDriverError =>
      -- lines 407–426: fallback to an incremental import of `added`
      match inp.importResults 1 with
      | .success =>
        { fileWrites := writes, finalFile := newData, newData := newData,
          stagedPayloads := [mkPayload newData, mkPayload (addedOf inp.oldData newData)],
          importCalls := [true, false], surfacedErrors := 0,
          suspiciousAbort := false }
      | _ =>
        -- lines 420–426: any failure of the fallback → restore + log
        { fileWrites := writes ++ [inp.oldData], finalFile := inp.oldData,
          newData := newData,
          stagedPayloads := [mkPayload newData, mkPayload (addedOf inp.oldData newData)],
          importCalls := [true, false], surfacedErrors := 1,
          suspiciousAbort := false }
    | .otherError =>
      -- lines 427–429: non-WebDriver exception → restore + log
      { fileWrites := writes ++ [inp.oldData], finalFile := inp.oldData,
        newData := newData, stagedPayloads := [mkPayload newData],
        importCalls := [true], surfacedErrors := 1, suspiciousAbort := false }
  else if (removedOf inp.oldData newData).length > 100 then
    -- lines 380–385: suspicious-deletion guard — plain return
    { fileWrites := writes, finalFile := newData, newData := newData,
      stagedPayloads := [], importCalls := [], surfacedErrors := 0,
      suspiciousAbort := true }
  else
    -- lines 386–402: incremental add; stage only `added` minus ID
    match inp.importResults 0 with
    | .success =>
      { fileWrites := writes, finalFile := newData, newData := newData,
        stagedPayloads := [mkPayload (addedOf inp.oldData newData)],
        importCalls := [false],
        surfacedErrors := 0, suspiciousAbort := false }
    | .webDriverError =>
      -- lines 407–408: caught, but `if change_all:` is false — the
      -- handler body is skipped entirely: no restore, no log
      { fileWrites := writes, finalFile := newData, newData := newData,
        stagedPayloads := [mkPayload (addedOf inp.oldData newData)],
        importCalls := [false],
        surfacedErrors := 0, suspiciousAbort := false }
    | .otherError =>
      { fileWrites := writes ++ [inp.oldData], finalFile := inp.oldData,
        newData := newData,
        stagedPayloads := [mkPayload (addedOf inp.oldData newData)],
        importCalls := [false], surfacedErrors := 1, suspiciousAbort := false }

/-- `main` after the geolocation gate (main.py lines 335–430): read
`old_data`, build the title-ordered snapshot (which writes the file),
loop the date-ordered pass (each attempt writes the file) until it is
complete, then diff and import.  `none` models a run that never exits
the completeness loop within the given fuel. -/
def runMain (inp : MainInput) (fuel : Nat) : Option MainOutcome :=
  match firstCompleteFrom inp.dateData inp.titleData.length fuel 0 with
  | none => none
  | some k =>
    some (orchestrate inp (inp.dateData k)
      (inp.titleData :: (List.range (k + 1)).map inp.dateData))

/-! ## `import_list` configuration handling (main.py lines 221–239)

The credentials are `os.getenv("LETTERBOXD_USERNAME")`,
`os.getenv("LETTERBOXD_PASSWORD")` and `os.getenv("LETTERBOXD_LIST")`;
a missing variable yields `None`.  The code raises
`ValueError("Please set your credentials in your .env file.")` iff the
username or the password is `None`; the list name is fetched at line 238
without any check and interpolated into the list-edit URL by an f-string
(Python renders `None` as the string `None`). -/

structure Env where
  username : Option String
  password : Option String
  listName : Option String

def credMsg : String := "Please set your credentials in your .env file."

/-- Python `f"{x}"` on an optional string. -/
def fstringOpt : Option String → String
  | some s => s
  | none => "None"

inductive ImportStart where
  | configError : String → ImportStart
  | proceed : String → ImportStart
deriving DecidableEq, Repr

def urlPre : String := "https://letterboxd.com/"
def urlMid : String := "/list/"
def urlPost : String := "/edit/"

/-- The configuration handling of `import_list`: which runs reach the
list-edit URL, and with which URL. -/
def import_list_config (env : Env) : ImportStart :=
  match env.username, env.password with
  | some u, some _ =>
    .proceed (urlPre ++ u ++ urlMid ++ fstringOpt env.listName ++ urlPost)
  | _, _ => .configError credMsg

/-! ## Concrete instances used to settle the claims -/

/-- A film with the given id and empty text fields. -/
def mkF (i : Nat) : Film := ⟨i, emptyStr, emptyStr, none⟩

/-- A run in which the new snapshot drops film 2 and adds nothing:
`added = []`, `removed = [film 2]`. -/
def remOnlyInp : MainInput :=
  { oldData := [mkF 1, mkF 2], titleData := [mkF 1],
    dateData := fun _ => [mkF 1], importResults := fun _ => .success }

/-- The same diff shape (`added = []`, `removed ≠ []`), used for the
strategy-selection claim. -/
def remOnlyInp2 : MainInput :=
  { oldData := [mkF 3, mkF 4], titleData := [mkF 3],
    dateData := fun _ => [mkF 3], importResults := fun _ => .success }

/-- An incremental run (`added = [film 2]`, `removed = []`) whose single
`import_list` call raises `WebDriverException`. -/
def incWebDrvInp : MainInput :=
  { oldData := [mkF 1], titleData := [mkF 1, mkF 2],
    dateData := fun _ => [mkF 1, mkF 2],
    importResults := fun _ => .webDriverError }

/-- An incremental run (`added = [film 2]`, `removed = []`) whose import
succeeds. -/
def incOkInp : MainInput :=
  { oldData := [mkF 1], titleData := [mkF 1, mkF 2],
    dateData := fun _ => [mkF 1, mkF 2], importResults := fun _ => .success }

/-- 102 previously known films. -/
def bigOld : List Film := (List.range 102).map mkF

/-- A run whose new snapshot keeps only film 0 of `bigOld`:
`|removed| = 101`, `|added| = 0`. -/
def suspInp : MainInput :=
  { oldData := bigOld, titleData := [mkF 0],
    dateData := fun _ => [mkF 0], importResults := fun _ => .success }

/-- The expected outcome of `runMain suspInp 2`. -/
def suspOut : MainOutcome :=
  { fileWrites := [[mkF 0], [mkF 0]], finalFile := [mkF 0],
    newData := [mkF 0], stagedPayloads := [], importCalls := [],
    surfacedErrors := 0, suspiciousAbort := false }

/-- The expected outcome of `runMain incOkInp 2`. -/
def incOkOut : MainOutcome :=
  { fileWrites := [[mkF 1, mkF 2], [mkF 1, mkF 2]],
    finalFile := [mkF 1, mkF 2], newData := [mkF 1, mkF 2],
    stagedPayloads := [mkPayload [mkF 2]], importCalls := [false],
    surfacedErrors := 0, suspiciousAbort := false }

/-- A date-sorted source stub that under-returns on its first attempt
(1 record) and returns the full count (2 records) on the second. -/
def shortThenFull : Nat → List Film
  | 0 => [mkF 1]
  | _ => [mkF 1, mkF 2]

/-- A catalog transport that keeps answering 200-with-records forever. -/
def always200 : Nat → Req Page := fun _ => .value ⟨200, [0]⟩

/-- A date-sorted source that always under-returns. -/
def alwaysShort : Nat → List Film := fun _ => []

/-- The pagination loop never terminates, whatever the fuel. -/
def paginationForever : Prop :=
  ∀ fuel, load_raw_data always200 fuel = none

/-- The completeness loop never terminates, whatever the fuel. -/
def completenessForever : Prop :=
  ∀ fuel, firstCompleteFrom alwaysShort 1 fuel 0 = none

/-- A transport whose first response ends the pagination (status 404). -/
def stops404 : Nat → Req Page := fun _ => .value ⟨404, []⟩

/-- "The source signalled the end of pagination at request `n`": the
natural termination condition of the pagination loop. -/
def stopsPage : Req Page → Prop
  | .connError => True
  | .value p => p.status ≠ 200

/-- A transport whose very first request raises a connection error and
which would end pagination immediately if a retry were issued. -/
def connFirstT : Nat → Req Page
  | 0 => .connError
  | _ => .value ⟨404, []⟩

/-- A transport that serves page 0 and then raises a connection error
mid-pagination. -/
def connMidT : Nat → Req Page
  | 0 => .value ⟨200, [7]⟩
  | _ => .connError

def frStr : String := "FR"

/-- A geolocation transport whose first request raises a connection
error and whose retry succeeds. -/
def geoRetryT : Nat → Req (Option String)
  | 0 => .connError
  | _ => .value (some frStr)

def userStr : String := "user"
def pwStr : String := "hunter2"
def listStr : String := "films"

/-- Credentials present, target list identifier absent. -/
def noListEnv : Env := ⟨some userStr, some pwStr, none⟩

/-- Username absent. -/
def noUserEnv : Env := ⟨none, some pwStr, some listStr⟩

/-! ### Concrete titles for the decomposition claims -/

def amelieTitle : String := "\"Amélie\" de Jeunet (2001)"
def amelieStr : String := "Amélie"
def jeunetStr : String := "Jeunet"
def someFilmTitle : String := "\"Some Film\" de "
def someFilmStr : String := "Some Film"
def plainTitle : String := "Plain Title"
def dirA : String := "Anna"
def dirB : String := "Bob"
def joinedDirs : String := "Anna,Bob"
def emptyYearTitle : String := "\"T\" de D ()"
def tStr : String := "T"
def dStr : String := "D"

/-! ## Helper lemmas about the two loops -/

/-- The completeness loop only ever exits by accepting an attempt whose
length reaches the target. -/
theorem firstCompleteFrom_sound (d : Nat → List Film) (target : Nat) :
    ∀ fuel s k, firstCompleteFrom d target fuel s = some k →
      target ≤ (d k).length := by
  intro fuel
  induction fuel with
  | zero => intro s k h; simp [firstCompleteFrom] at h
  | succ n ih =>
    intro s k h
    rw [firstCompleteFrom] at h
    split at h
    · injection h with h2; subst h2; assumption
    · exact ih (s + 1) k h

/-- The completeness loop exits once some attempt reaches the target. -/
theorem firstCompleteFrom_term (d : Nat → List Film) (target : Nat) :
    ∀ n s, target ≤ (d (s + n)).length →
      (firstCompleteFrom d target (n + 1) s).isSome = true := by
  intro n
  induction n with
  | zero =>
    intro s h
    rw [firstCompleteFrom]
    rw [Nat.add_zero] at h
    simp [h]
  | succ m ih =>
    intro s h
    rw [firstCompleteFrom]
    split
    · simp
    · exact ih (s + 1) (by rw [show s + 1 + m = s + (m + 1) from by omega]; exact h)

/-- Against the always-200 transport the pagination loop exhausts any
fuel. -/
theorem load_raw_data_go_always200 :
    ∀ fuel page acc, load_raw_data_go always200 fuel page acc = none := by
  intro fuel
  induction fuel with
  | zero => intro page acc; rfl
  | succ n ih => intro page acc; simp [load_raw_data_go, always200, ih]

/-- Against an always-under-returning source the completeness loop
exhausts any fuel. -/
theorem firstCompleteFrom_alwaysShort :
    ∀ fuel s, firstCompleteFrom alwaysShort 1 fuel s = none := by
  intro fuel
  induction fuel with
  | zero => intro s; rfl
  | succ n ih => intro s; simp [firstCompleteFrom, alwaysShort, ih]

/-- The pagination loop terminates once the source answers with a
connection error or a non-200 status. -/
theorem load_raw_data_go_stops :
    ∀ (n : Nat) (t : Nat → Req Page) (page : Nat) (acc : List Nat),
      stopsPage (t (page + n)) →
      (load_raw_data_go t (n + 1) page acc).isSome = true := by
  intro n
  induction n with
  | zero =>
    intro t page acc h
    rw [Nat.add_zero] at h
    rw [load_raw_data_go]
    cases ht : t page with
    | connError => simp
    | value p =>
      rw [ht] at h
      simp only [stopsPage] at h
      simp [h]
  | succ m ih =>
    intro t page acc h
    rw [load_raw_data_go]
    cases ht : t page with
    | connError => simp
    | value p =>
      by_cases hs : p.status = 200
      · simp only [hs, if_pos rfl]
        exact ih t (page + 1) (acc ++ p.records)
          (by rw [show page + 1 + m = page + (m + 1) from by omega]; exact h)
      · simp [hs]

/-- A connection-level failure at any point of the pagination — here
after `n` successful 200 pages — propagates out of `load_raw_data` as an
uncaught exception: there is no retry anywhere in the pagination. -/
theorem load_raw_data_go_connMid :
    ∀ (n : Nat) (t : Nat → Req Page) (fuel page : Nat) (acc : List Nat),
      (∀ i, i < n → ∃ recs, t (page + i) = Req.value ⟨200, recs⟩) →
      t (page + n) = Req.connError →
      load_raw_data_go t (fuel + n + 1) page acc = some FetchResult.err := by
  intro n
  induction n with
  | zero =>
    intro t fuel page acc _ hconn
    rw [Nat.add_zero] at hconn
    rw [load_raw_data_go, hconn]
  | succ m ih =>
    intro t fuel page acc hpre hconn
    obtain ⟨recs, h0⟩ := hpre 0 (Nat.succ_pos m)
    rw [Nat.add_zero] at h0
    rw [load_raw_data_go, h0]
    show load_raw_data_go t (fuel + (m + 1)) (page + 1) (acc ++ recs)
      = some FetchResult.err
    rw [show fuel + (m + 1) = fuel + m + 1 from by omega]
    refine ih t fuel (page + 1) (acc ++ recs) ?_ ?_
    · intro i hi
      obtain ⟨r2, h2⟩ := hpre (i + 1) (by omega)
      exact ⟨r2, by rw [show page + 1 + i = page + (i + 1) from by omega]; exact h2⟩
    · rw [show page + 1 + m = page + (m + 1) from by omega]
      exact hconn

/-- C5: the Snapshot Builder's completeness loop never accepts a
date-ordered result strictly smaller than the title-ordered count: any
accepted attempt `k` satisfies `target ≤ |d k|`; and on the stub that
under-returns on attempt 0 and returns the full count on attempt 1, the
loop accepts attempt 1. -/
theorem c5_completeness_invariant :
    (∀ (d : Nat → List Film) (target fuel s k : Nat),
        firstCompleteFrom d target fuel s = some k → target ≤ (d k).length)
  ∧ firstCompleteFrom shortThenFull 2 5 0 = some 1
  ∧ (shortThenFull 0).length < 2 ∧ (shortThenFull 1).length = 2 :=
  ⟨fun d target fuel s k h => firstCompleteFrom_sound d target fuel s k h,
   by decide, by decide, by decide⟩

/-- C5 witness: the invariant applied to the two-attempt stub. -/
theorem c5_completeness_invariant_witness :
    2 ≤ (shortThenFull 1).length :=
  c5_completeness_invariant.1 shortThenFull 2 5 0 1 (by decide)

/-- C6 counterexample: on a transport whose very first catalog request
raises a connection error (and which would end pagination at once on a
retry), `load_raw_data` propagates the error — no retry is performed for
the first catalog request, contrary to the claim. -/
theorem c6_counterexample :
    load_raw_data connFirstT 5 = some FetchResult.err
  ∧ ¬ load_raw_data connFirstT 5 = some (FetchResult.ok []) := by decide

/-- C6 (amended): no retry exists anywhere in the catalog pagination — a
connection error on the first or any later page propagates upward — and
the single immediate retry is performed by the geolocation request at
the start of `main` instead. -/
theorem c6_amended_retry_location :
    (∀ (t : Nat → Req Page) (fuel : Nat),
        t 0 = Req.connError → load_raw_data t (fuel + 1) = some FetchResult.err)
  ∧ (∀ (n : Nat) (t : Nat → Req Page) (fuel page : Nat) (acc : List Nat),
        (∀ i, i < n → ∃ recs, t (page + i) = Req.value ⟨200, recs⟩) →
        t (page + n) = Req.connError →
        load_raw_data_go t (fuel + n + 1) page acc = some FetchResult.err)
  ∧ (∀ (t : Nat → Req (Option String)) (c : Option String),
        t 0 = Req.connError → t 1 = Req.value c → geoRequest t = GeoResult.ok c) := by
  refine ⟨?_, load_raw_data_go_connMid, ?_⟩
  · intro t fuel h
    unfold load_raw_data
    rw [load_raw_data_go, h]
  · intro t c h0 h1
    unfold geoRequest
    rw [h0, h1]

/-- C6 witness: the amended rule at concrete transports. -/
theorem c6_amended_retry_location_witness :
    load_raw_data connFirstT 1 = some FetchResult.err
  ∧ load_raw_data_go connMidT 2 0 [] = some FetchResult.err
  ∧ geoRequest geoRetryT = GeoResult.ok (some frStr) :=
  ⟨c6_amended_retry_location.1 connFirstT 0 rfl,
   c6_amended_retry_location.2.1 1 connMidT 0 0 []
     (fun i hi => ⟨[7], by rw [show i = 0 from by omega]; rfl⟩) rfl,
   c6_amended_retry_location.2.2 geoRetryT (some frStr) rfl rfl⟩

/-- C7 counterexample: neither loop has an upper iteration bound — the
pagination loop runs forever against a source that keeps answering 200
with records, and the completeness loop runs forever against a source
that keeps under-returning. -/
theorem c7_counterexample : paginationForever ∧ completenessForever :=
  ⟨fun fuel => load_raw_data_go_always200 fuel 0 [],
   fun fuel => firstCompleteFrom_alwaysShort fuel 0⟩

/-- C7 (amended): each loop terminates exactly by its source-side
natural condition — a connection error or non-200 page for the
pagination loop, an attempt reaching the title-ordered count for the
completeness loop. -/
theorem c7_amended_termination :
    (∀ (t : Nat → Req Page) (n : Nat), stopsPage (t n) →
        (load_raw_data t (n + 1)).isSome = true)
  ∧ (∀ (d : Nat → List Film) (target k : Nat), target ≤ (d k).length →
        (firstCompleteFrom d target (k + 1) 0).isSome = true) := by
  constructor
  · intro t n h
    exact load_raw_data_go_stops n t 0 [] (by rw [Nat.zero_add]; exact h)
  · intro d target k h
    exact firstCompleteFrom_term d target k 0 (by rw [Nat.zero_add]; exact h)

/-- C7 witness: the termination conditions at concrete sources. -/
theorem c7_amended_termination_witness :
    (load_raw_data stops404 1).isSome = true
  ∧ (firstCompleteFrom shortThenFull 1 1 0).isSome = true :=
  ⟨c7_amended_termination.1 stops404 0 (show (404 : Nat) ≠ 200 by decide),
   c7_amended_termination.2 shortThenFull 1 0 (by decide)⟩

/-! ## Helper lemmas about the orchestration -/

/-- The `newData` observable of the orchestration is the accepted
snapshot, in every branch. -/
theorem orchestrate_newData (inp : MainInput) (nd : List Film)
    (w : List (List Film)) : (orchestrate inp nd w).newData = nd := by
  unfold orchestrate
  split_ifs
  · rfl
  · cases inp.importResults 0
    · rfl
    · cases inp.importResults 1 <;> rfl
    · rfl
  · rfl
  · cases inp.importResults 0 <;> rfl

/-- Lifecycle of the snapshot file across the orchestration: the file
trace is either the build-time writes alone or those writes followed by
one restoring write of `old_data`; the final content is `old_data`
exactly in the branches that also record an error, and the accepted new
snapshot in all others. -/
theorem orchestrate_lifecycle (inp : MainInput) (nd : List Film)
    (w : List (List Film)) :
    ((orchestrate inp nd w).fileWrites = w
        ∨ (orchestrate inp nd w).fileWrites = w ++ [inp.oldData])
  ∧ ((orchestrate inp nd w).finalFile = inp.oldData
        ∨ (orchestrate inp nd w).finalFile = nd)
  ∧ (0 < (orchestrate inp nd w).surfacedErrors →
        (orchestrate inp nd w).finalFile = inp.oldData)
  ∧ ((orchestrate inp nd w).surfacedErrors = 0 →
        (orchestrate inp nd w).finalFile = nd) := by
  unfold orchestrate
  split_ifs
  all_goals try cases inp.importResults 0
  all_goals try cases inp.importResults 1
  all_goals simp

/-- Strategy selection as implemented: an empty `added` short-circuits
everything; otherwise a non-empty `removed` forces a full replace whose
first staged payload is the whole snapshot minus ID; otherwise a single
incremental import of `added` minus ID. -/
theorem orchestrate_strategy (inp : MainInput) (nd : List Film)
    (w : List (List Film)) :
    (addedOf inp.oldData nd = [] →
        (orchestrate inp nd w).importCalls = []
      ∧ (orchestrate inp nd w).stagedPayloads = [])
  ∧ (addedOf inp.oldData nd ≠ [] → removedOf inp.oldData nd ≠ [] →
        (orchestrate inp nd w).importCalls.head? = some true
      ∧ (orchestrate inp nd w).stagedPayloads.head? = some (mkPayload nd))
  ∧ (addedOf inp.oldData nd ≠ [] → removedOf inp.oldData nd = [] →
        (orchestrate inp nd w).importCalls = [false]
      ∧ (orchestrate inp nd w).stagedPayloads
          = [mkPayload (addedOf inp.oldData nd)]) := by
  unfold orchestrate
  split_ifs with h1 h2 h3
  · exact ⟨fun _ => ⟨rfl, rfl⟩,
      fun ha _ => absurd (List.length_eq_zero.mp h1) ha,
      fun ha _ => absurd (List.length_eq_zero.mp h1) ha⟩
  · have hcontra : addedOf inp.oldData nd = [] → False :=
      fun ha => h1 (by rw [ha]; rfl)
    have hrne : removedOf inp.oldData nd = [] → False :=
      fun hr => by rw [hr] at h2; exact absurd h2 (by simp)
    cases inp.importResults 0
    · exact ⟨fun ha => (hcontra ha).elim, fun _ _ => ⟨rfl, rfl⟩,
        fun _ hr => (hrne hr).elim⟩
    · cases inp.importResults 1 <;>
        exact ⟨fun ha => (hcontra ha).elim, fun _ _ => ⟨rfl, rfl⟩,
          fun _ hr => (hrne hr).elim⟩
    · exact ⟨fun ha => (hcontra ha).elim, fun _ _ => ⟨rfl, rfl⟩,
        fun _ hr => (hrne hr).elim⟩
  · exact absurd h3 (by omega)
  · have hcontra : addedOf inp.oldData nd = [] → False :=
      fun ha => h1 (by rw [ha]; rfl)
    have hre : removedOf inp.oldData nd = [] := by
      rw [← List.length_eq_zero]; omega
    cases inp.importResults 0 <;>
      exact ⟨fun ha => (hcontra ha).elim,
        fun _ hrne => absurd hre hrne, fun _ _ => ⟨rfl, rfl⟩⟩

/-- The suspicious-deletion branch is unreachable (it is only checked
when `removed` is empty), and an empty `added` short-circuits the run
with the file keeping the freshly built snapshot. -/
theorem orchestrate_noAdd (inp : MainInput) (nd : List Film)
    (w : List (List Film)) :
    (addedOf inp.oldData nd = [] →
        (orchestrate inp nd w).importCalls = []
      ∧ (orchestrate inp nd w).stagedPayloads = []
      ∧ (orchestrate inp nd w).finalFile = nd)
  ∧ (orchestrate inp nd w).suspiciousAbort = false := by
  unfold orchestrate
  split_ifs with h1 h2 h3
  · exact ⟨fun _ => ⟨rfl, rfl, rfl⟩, rfl⟩
  · have hcontra : addedOf inp.oldData nd = [] → False :=
      fun ha => h1 (by rw [ha]; rfl)
    cases inp.importResults 0
    · exact ⟨fun ha => (hcontra ha).elim, rfl⟩
    · cases inp.importResults 1 <;> exact ⟨fun ha => (hcontra ha).elim, rfl⟩
    · exact ⟨fun ha => (hcontra ha).elim, rfl⟩
  · exact absurd h3 (by omega)
  · have hcontra : addedOf inp.oldData nd = [] → False :=
      fun ha => h1 (by rw [ha]; rfl)
    cases inp.importResults 0 <;> exact ⟨fun ha => (hcontra ha).elim, rfl⟩

/-- C1 counterexample: a run whose diff removes a film and adds nothing
terminates with no import call at all, yet leaves the persisted snapshot
file holding the freshly computed snapshot — a state that was computed
but never confirmed applied, contradicting the claimed invariant that
the file is replaced only after a confirmed successful import. -/
theorem c1_counterexample :
    (runMain remOnlyInp 2).map MainOutcome.importCalls = some []
  ∧ (runMain remOnlyInp 2).map MainOutcome.finalFile = some [mkF 1]
  ∧ ¬ (runMain remOnlyInp 2).map MainOutcome.finalFile
        = some remOnlyInp.oldData := by decide

/-- C1 (amended): the persisted file is overwritten with each computed
snapshot already during snapshot building (the first write is the
title-ordered pass, before any import is attempted); the final content
is always either `old_data` or the accepted new snapshot, it is
`old_data` whenever an error was recorded (the restore paths), and it is
the computed new snapshot in every run that records no error — including
early exits and swallowed failures with no confirmed import. -/
theorem c1_snapshot_consistency (inp : MainInput) (fuel : Nat)
    (o : MainOutcome) (h : runMain inp fuel = some o) :
    o.fileWrites.head? = some inp.titleData
  ∧ (o.finalFile = inp.oldData ∨ o.finalFile = o.newData)
  ∧ (0 < o.surfacedErrors → o.finalFile = inp.oldData)
  ∧ (o.surfacedErrors = 0 → o.finalFile = o.newData) := by
  unfold runMain at h
  cases hk : firstCompleteFrom inp.dateData inp.titleData.length fuel 0 with
  | none => rw [hk] at h; exact absurd h (by simp)
  | some k =>
    rw [hk] at h
    simp only [Option.some.injEq] at h
    subst h
    have hnd := orchestrate_newData inp (inp.dateData k)
      (inp.titleData :: (List.range (k + 1)).map inp.dateData)
    have hl := orchestrate_lifecycle inp (inp.dateData k)
      (inp.titleData :: (List.range (k + 1)).map inp.dateData)
    refine ⟨?_, ?_, ?_, ?_⟩
    · rcases hl.1 with hw | hw <;> rw [hw] <;> rfl
    · rw [hnd]; exact hl.2.1
    · exact hl.2.2.1
    · rw [hnd]; exact hl.2.2.2

/-- C1 witness: a successful incremental run, instantiating the amended
lifecycle. -/
theorem c1_snapshot_consistency_witness :
    incOkOut.fileWrites.head? = some incOkInp.titleData
  ∧ incOkOut.finalFile = incOkOut.newData :=
  ⟨(c1_snapshot_consistency incOkInp 2 incOkOut (by decide)).1,
   (c1_snapshot_consistency incOkInp 2 incOkOut (by decide)).2.2.2 (by decide)⟩

/-- C2: when an incremental (non-full-replace) import fails with
`WebDriverException`, the handler's `if change_all:` guard is false and
its body is skipped entirely: the run ends with no error recorded and
with the persisted file still holding the new, never-imported snapshot —
the rollback and surfacing the claim (and the spec's rollback rule)
require do not happen. -/
theorem c2_incremental_failure_swallowed :
    (runMain incWebDrvInp 2).map MainOutcome.importCalls = some [false]
  ∧ (runMain incWebDrvInp 2).map MainOutcome.surfacedErrors = some 0
  ∧ (runMain incWebDrvInp 2).map MainOutcome.finalFile = some [mkF 1, mkF 2]
  ∧ ¬ (runMain incWebDrvInp 2).map MainOutcome.finalFile
        = some incWebDrvInp.oldData := by decide

/-- C3 counterexample: a diff with `removed` non-empty but `added` empty
does not choose FULL_REPLACE — the run hits the `len(added) == 0` early
return first, stages nothing and never contacts the remote service,
contrary to the claim's "removed non-empty ⇒ FULL_REPLACE". -/
theorem c3_counterexample :
    removedOf remOnlyInp2.oldData [mkF 3] = [mkF 4]
  ∧ (runMain remOnlyInp2 2).map MainOutcome.importCalls = some []
  ∧ (runMain remOnlyInp2 2).map MainOutcome.stagedPayloads = some [] := by decide

/-- C3 (amended): if `added` is empty the run terminates with no staging
and no remote call regardless of `removed`; otherwise `removed`
non-empty chooses FULL_REPLACE staging the whole new snapshot minus id
first, and `removed` empty chooses INCREMENTAL_ADD staging exactly
`added` minus id. -/
theorem c3_amended_strategy (inp : MainInput) (fuel : Nat) (o : MainOutcome)
    (h : runMain inp fuel = some o) :
    (addedOf inp.oldData o.newData = [] →
        o.importCalls = [] ∧ o.stagedPayloads = [])
  ∧ (addedOf inp.oldData o.newData ≠ [] →
        removedOf inp.oldData o.newData ≠ [] →
        o.importCalls.head? = some true
      ∧ o.stagedPayloads.head? = some (mkPayload o.newData))
  ∧ (addedOf inp.oldData o.newData ≠ [] →
        removedOf inp.oldData o.newData = [] →
        o.importCalls = [false]
      ∧ o.stagedPayloads = [mkPayload (addedOf inp.oldData o.newData)]) := by
  unfold runMain at h
  cases hk : firstCompleteFrom inp.dateData inp.titleData.length fuel 0 with
  | none => rw [hk] at h; exact absurd h (by simp)
  | some k =>
    rw [hk] at h
    simp only [Option.some.injEq] at h
    subst h
    have hnd := orchestrate_newData inp (inp.dateData k)
      (inp.titleData :: (List.range (k + 1)).map inp.dateData)
    rw [hnd]
    exact orchestrate_strategy inp (inp.dateData k)
      (inp.titleData :: (List.range (k + 1)).map inp.dateData)

/-- C3 witness: the incremental branch of the amended strategy at a
concrete run. -/
theorem c3_amended_strategy_witness :
    incOkOut.importCalls = [false]
  ∧ incOkOut.stagedPayloads
      = [mkPayload (addedOf incOkInp.oldData incOkOut.newData)] :=
  (c3_amended_strategy incOkInp 2 incOkOut (by decide)).2.2
    (by decide) (by decide)

/-- C4 counterexample: with `|removed| = 101` and `added = []` the run
does abort with nothing staged and no remote call, but the persisted
snapshot file is NOT unchanged: it already holds the newly built
snapshot (written during snapshot building), not the pre-run contents. -/
theorem c4_counterexample :
    (removedOf suspInp.oldData [mkF 0]).length = 101
  ∧ addedOf suspInp.oldData [mkF 0] = []
  ∧ (runMain suspInp 2).map MainOutcome.importCalls = some []
  ∧ (runMain suspInp 2).map MainOutcome.stagedPayloads = some []
  ∧ (runMain suspInp 2).map MainOutcome.finalFile = some [mkF 0]
  ∧ ¬ (runMain suspInp 2).map MainOutcome.finalFile
        = some suspInp.oldData := by decide

/-- C4 (amended): a diff with `added` empty — which subsumes the
claimed `|removed| = 101, |added| = 0` scenario — aborts the run with
nothing staged and no remote call, but leaves the persisted file holding
the freshly built snapshot; and the `len(removed) > 100` guard branch
itself is unreachable in every run. -/
theorem c4_amended_guard (inp : MainInput) (fuel : Nat) (o : MainOutcome)
    (h : runMain inp fuel = some o) :
    (addedOf inp.oldData o.newData = [] →
        o.importCalls = [] ∧ o.stagedPayloads = [] ∧ o.finalFile = o.newData)
  ∧ o.suspiciousAbort = false := by
  unfold runMain at h
  cases hk : firstCompleteFrom inp.dateData inp.titleData.length fuel 0 with
  | none => rw [hk] at h; exact absurd h (by simp)
  | some k =>
    rw [hk] at h
    simp only [Option.some.injEq] at h
    subst h
    have hnd := orchestrate_newData inp (inp.dateData k)
      (inp.titleData :: (List.range (k + 1)).map inp.dateData)
    rw [hnd]
    exact orchestrate_noAdd inp (inp.dateData k)
      (inp.titleData :: (List.range (k + 1)).map inp.dateData)

/-- C4 witness: the amended guard at the concrete 101-removals run. -/
theorem c4_amended_guard_witness :
    suspOut.importCalls = [] ∧ suspOut.stagedPayloads = []
  ∧ suspOut.finalFile = suspOut.newData
  ∧ suspOut.suspiciousAbort = false :=
  ⟨((c4_amended_guard suspInp 2 suspOut (by decide)).1 (by decide)).1,
   ((c4_amended_guard suspInp 2 suspOut (by decide)).1 (by decide)).2.1,
   ((c4_amended_guard suspInp 2 suspOut (by decide)).1 (by decide)).2.2,
   (c4_amended_guard suspInp 2 suspOut (by decide)).2⟩

/-- C8: title decomposition behaves exactly as claimed on each canonical
shape — the quoted pattern with director and year, the quoted pattern
with trailing `de ` and no metadata, the no-pattern passthrough, and the
structured-year cases (comma-joined director list, or empty when the
list is absent, title unchanged, structured year kept). -/
theorem c8_title_decomposition :
    decompose ⟨ amelieTitle, none, none⟩ = some (amelieStr, jeunetStr, some 2001)
  ∧ decompose ⟨ someFilmTitle, none, none⟩ = some (someFilmStr, emptyStr, none)
  ∧ decompose ⟨ plainTitle, none, none⟩ = some (plainTitle, emptyStr, none)
  ∧ decompose ⟨ plainTitle, some [dirA, dirB], some 1999⟩
      = some (plainTitle, joinedDirs, some 1999)
  ∧ decompose ⟨ plainTitle, none, some 1999⟩
      = some (plainTitle, emptyStr, some 1999) := by decide

/-- C9 counterexample: with the account identifier and the secret
present but the target list identifier absent, `import_list` raises no
configuration error — it proceeds to the remote session, interpolating
the literal string `None` into the list-edit URL — contradicting the
claim that the absence of any of the three values is fatal. -/
theorem c9_counterexample :
    import_list_config noListEnv
      = ImportStart.proceed
          (urlPre ++ userStr ++ urlMid ++ fstringOpt none ++ urlPost)
  ∧ ¬ import_list_config noListEnv = ImportStart.configError credMsg := by
  decide

/-- C9 (amended): the absence of the account identifier or of the secret
raises the configuration `ValueError` before the remote session
proceeds; the target list identifier is never checked — with both
credentials present the session proceeds whatever the list identifier,
rendering an absent one as the string `None` in the URL. -/
theorem c9_amended_config_check (env : Env) :
    ((env.username = none ∨ env.password = none) →
        import_list_config env = ImportStart.configError credMsg)
  ∧ (∀ a b, env.username = some a → env.password = some b →
        import_list_config env
          = ImportStart.proceed
              (urlPre ++ a ++ urlMid ++ fstringOpt env.listName ++ urlPost)) := by
  obtain ⟨u, p, l⟩ := env
  constructor
  · intro h
    rcases h with h | h
    · simp only at h
      subst h
      cases p <;> rfl
    · simp only at h
      subst h
      cases u <;> rfl
  · intro a b ha hb
    simp only at ha hb
    subst ha
    subst hb
    rfl

/-- C9 witness: a missing username is fatal; a missing list identifier
is not. -/
theorem c9_amended_config_check_witness :
    import_list_config noUserEnv = ImportStart.configError credMsg
  ∧ import_list_config noListEnv
      = ImportStart.proceed
          (urlPre ++ userStr ++ urlMid ++ fstringOpt noListEnv.listName
            ++ urlPost) :=
  ⟨(c9_amended_config_check noUserEnv).1 (Or.inl rfl),
   (c9_amended_config_check noListEnv).2 userStr pwStr rfl rfl⟩

/-- C10: `decompose` is not total — on a title whose quoted pattern has
an empty parenthesised year field, pattern A matches with an empty
year-capturing group (as the second conjunct shows), and the integer
conversion of that empty capture raises, so `decompose` produces no
result. -/
theorem c10_decompose_not_total :
    decompose ⟨ emptyYearTitle, none, none⟩ = none
  ∧ findA emptyYearTitle.data = some (tStr, dStr, emptyStr) := by decide
